import Mathlib

/-!
Verification of the Data API client (`planet/clients/data.py`).

The file shallowly embeds the client operations `quick_search`, `get_assets`,
`get_asset`, `activate` and `download`, together with the Python dictionary,
list and exception semantics their bodies rely on.  Collaborators that live
outside the embedded source file (the transport session, the `Items` paginated
iterator and the `Item`/`Asset` record wrappers) are modelled from the
specification and are marked as such in their doc comments.
-/

/-- A JSON value as decoded by Python's json module.  Object fields are the
decoded dict's items in insertion order (the decoder keeps declaration order;
keys are unique in decoder output).  Numbers are modelled as integers, which
covers every value the embedded code paths inspect. -/
inductive Json where
  | null : Json
  | bool (b : Bool) : Json
  | num (n : Int) : Json
  | str (s : String) : Json
  | arr (elems : List Json) : Json
  | obj (fields : List (String × Json)) : Json

/-- The message payload carried by an exception: either a raw server-body
string, abstracted by its JSON-decode result (`raw none` stands for a string
that is not valid JSON), or a Python value extracted from a decoded body by
one of the client's error translators. -/
inductive ExcMsg where
  | raw (decoded : Option Json) : ExcMsg
  | extracted (v : Json) : ExcMsg

/-- Exceptions observable in the embedded code paths: the transport's typed
API exceptions (spec section 6 taxonomy), the Python-level errors the error
translators can raise while parsing an error body, and NotImplementedError. -/
inductive Exc where
  | badQuery (msg : ExcMsg) : Exc
  | missingResource (msg : ExcMsg) : Exc
  | overQuota (msg : ExcMsg) : Exc
  | jsonDecodeError : Exc
  | keyError (key : Json) : Exc
  | attributeError : Exc
  | typeError : Exc
  | stopIteration : Exc
  | indexError : Exc
  | notImplemented : Exc

/-- Python's json.loads applied to an exception message.  A raw message either
decodes to its JSON value or raises JSONDecodeError.  The `extracted` arm is
unreachable in the embedded flows (the handlers only ever see transport-raised
exceptions, whose messages are raw server bodies); json.loads of a non-string
Python value raises TypeError. -/
def json_loads : ExcMsg → Except Exc Json
  | .raw (some j) => .ok j
  | .raw none => .error .jsonDecodeError
  | .extracted _ => .error .typeError

/-- Python subscript `v[k]` with a string key: dict lookup (KeyError when the
key is absent), TypeError on any non-dict value. -/
def pyGetStr (v : Json) (k : String) : Except Exc Json :=
  match v with
  | .obj kvs =>
    match List.lookup k kvs with
    | some x => .ok x
    | none => .error (.keyError (.str k))
  | _ => .error .typeError

/-- Python subscript `v[i]` with an integer index: list and string indexing
with negative-index wrap-around and IndexError out of range; on a dict it is a
key lookup, which fails with KeyError since decoded JSON objects only have
string keys; TypeError otherwise. -/
def pyGetInt (v : Json) (i : Int) : Except Exc Json :=
  match v with
  | .arr xs =>
    let j : Int := if i < 0 then i + xs.length else i
    if 0 ≤ j then
      match xs[j.toNat]? with
      | some x => .ok x
      | none => .error .indexError
    else .error .indexError
  | .str s =>
    let cs := s.data
    let j : Int := if i < 0 then i + cs.length else i
    if 0 ≤ j then
      match cs[j.toNat]? with
      | some c => .ok (.str (String.mk [c]))
      | none => .error .indexError
    else .error .indexError
  | .obj _ => .error (.keyError (.num i))
  | _ => .error .typeError

/-- Python `v.keys()`: the dict's keys in insertion order; AttributeError on a
non-dict value. -/
def pyKeys (v : Json) : Except Exc (List String) :=
  match v with
  | .obj kvs => .ok (kvs.map Prod.fst)
  | _ => .error .attributeError

/-- Python `v.values()`: the dict's values in insertion order; AttributeError
on a non-dict value. -/
def pyValues (v : Json) : Except Exc (List Json) :=
  match v with
  | .obj kvs => .ok (kvs.map Prod.snd)
  | _ => .error .attributeError

/-- Python `next(iter(ks))`: the first element, or StopIteration when the
iterator is empty. -/
def pyNextIter (ks : List String) : Except Exc String :=
  match ks with
  | [] => .error .stopIteration
  | k :: _ => .ok k

/-- Python `for a in v` over a decoded JSON value: iterating a dict yields its
keys (strings), a list yields its elements, a string yields its one-character
substrings; other values raise TypeError. -/
def pyIter (v : Json) : Except Exc (List Json) :=
  match v with
  | .obj kvs => .ok (kvs.map (fun kv => Json.str kv.fst))
  | .arr xs => .ok xs
  | .str s => .ok (s.data.map (fun c => Json.str (String.mk [c])))
  | _ => .error .typeError

/-- Modelled from the spec: the transport request-builder primitive takes a
method, a URL and an optional JSON body and returns an opaque request handle
(spec section 6).  A query-parameter field is included in the model only so
that theorems can record that the calls in data.py never populate it. -/
structure Request where
  url : String
  method : String
  data : Option Json
  params : List (String × String)

/-- Modelled from the spec: outcome of the transport's async perform-request
primitive — a response (represented by its decoded JSON body) or one of the
typed API exceptions carrying a raw message payload (spec section 6). -/
inductive DoResult where
  | ok (body : Json) : DoResult
  | exc (e : Exc) : DoResult

/-- Modelled from the spec: an `Item` is one search result with an identifier,
a type and its raw record (spec section 3); `item.type` and `item.id` are the
attributes read by get_assets. -/
structure Item where
  id : String
  type : String
  record : Json

/-- Modelled from the spec: an `Asset` wraps a raw server JSON record (spec
section 6: an opaque value constructor over the record). -/
structure Asset where
  record : Json

/-- Modelled from the spec: the asset's server-supplied activation URL, an
opaque string carried on the asset record (spec section 6: activation is a GET
of `asset.activate_url`).  Read off the record's "activate_url" field when it
is a string, and empty otherwise; no embedded claim depends on its value. -/
def Asset.activate_url (a : Asset) : String :=
  match a.record with
  | .obj kvs =>
    match List.lookup "activate_url" kvs with
    | some (.str s) => s
    | _ => ""
  | _ => ""

/-- Wire path prefix of the Data API (source constant DATA_PATH). -/
def DATA_PATH : String := "data/v1/"

/-- The four admissible sort values (source constant SORT_ORDER; defined at
module level and never referenced by any function in the source file). -/
def SORT_ORDER : List String :=
  ["acquired asc", "acquired desc", "published asc", "published desc"]

/-- The JSON body of a quick-search submission, exactly as built in the
source: filter and item_types, nothing else. -/
def searchBody (filt : Json) (item_types : List String) : Json :=
  Json.obj [("filter", filt), ("item_types", Json.arr (item_types.map Json.str))]

/-- The request constructed by quick_search: a POST to
base_url ++ DATA_PATH ++ "quick-search" carrying the search body and no query
parameters (the source calls `self._request(url, method='POST',
data=search_body)` with nothing else). -/
def quickSearchRequest (base_url : String) (filt : Json) (item_types : List String) : Request :=
  { url := base_url ++ DATA_PATH ++ "quick-search"
    method := "POST"
    data := some (searchBody filt item_types)
    params := [] }

/-- The bad-query error-body parse performed inside quick_search's
`_request_and_parse`, step for step:
`msg_json = json.loads(ex.message)`,
`field = next(iter(msg_json['field'].keys()))`,
`msg = msg_json['field'][field][0]['message']`. -/
def badQueryParse (msg : ExcMsg) : Except Exc Json :=
  match json_loads msg with
  | .error p => .error p
  | .ok msgJson =>
    match pyGetStr msgJson "field" with
    | .error p => .error p
    | .ok f1 =>
      match pyKeys f1 with
      | .error p => .error p
      | .ok ks =>
        match pyNextIter ks with
        | .error p => .error p
        | .ok field =>
          match pyGetStr msgJson "field" with
          | .error p => .error p
          | .ok f2 =>
            match pyGetStr f2 field with
            | .error p => .error p
            | .ok entry =>
              match pyGetInt entry 0 with
              | .error p => .error p
              | .ok first => pyGetStr first "message"

/-- The missing-resource error-body parse performed in get_assets:
`msg = json.loads(ex.message)['general'][0]['message']`. -/
def missingResourceListParse (msg : ExcMsg) : Except Exc Json :=
  match json_loads msg with
  | .error p => .error p
  | .ok msgJson =>
    match pyGetStr msgJson "general" with
    | .error p => .error p
    | .ok gen =>
      match pyGetInt gen 0 with
      | .error p => .error p
      | .ok first => pyGetStr first "message"

/-- The missing-resource error-body parse performed in activate:
`msg = json.loads(ex.message)['general']['message']` (scalar shape, no list
index). -/
def missingResourceScalarParse (msg : ExcMsg) : Except Exc Json :=
  match json_loads msg with
  | .error p => .error p
  | .ok msgJson =>
    match pyGetStr msgJson "general" with
    | .error p => .error p
    | .ok gen => pyGetStr gen "message"

/-- The exception that escapes `_request_and_parse` when `_do_request` raised
`e`: a BadQuery is re-raised with the extracted first-field first-message when
the body parses, any parse failure propagates itself, and every other
exception propagates unchanged. -/
def requestAndParseExc (e : Exc) : Exc :=
  match e with
  | .badQuery msg =>
    match badQueryParse msg with
    | .ok m => .badQuery (.extracted m)
    | .error p => p
  | other => other

/-- `_request_and_parse` as a whole: the response body on success, the
translated exception otherwise. -/
def requestAndParse (r : DoResult) : Except Exc Json :=
  match r with
  | .ok body => .ok body
  | .exc e => .error (requestAndParseExc e)

/-- Modelled from the spec: one result page — a decoded batch of Items plus an
optional next-page reference, opaque to the iterator (spec section 3). -/
structure PageT (ρ : Type) where
  items : List Item
  next : Option ρ

/-- Modelled from the spec: the `Items` paginated iterator, materialized (spec
section 4.3).  Starting from an optional page reference it repeatedly: stops
when the limit is reached or no reference remains; otherwise fetches the
referenced page, yields its items up to the remaining limit, and continues
with the page's next reference.  A fetch failure ends the run carrying that
exception.  Returns the yielded items, the page requests performed in order,
and the terminating exception if any.  `fuel` bounds the chain length and is a
modelling artifact: every theorem supplies enough fuel for its chain. -/
def itemsRun {ρ : Type} (fetch : ρ → Except Exc (PageT ρ)) :
    Nat → Option Nat → Option ρ → List Item × List ρ × Option Exc
  | _, _, none => ([], [], none)
  | 0, _, some _ => ([], [], none)
  | Nat.succ fuel, limit, some r =>
    if limit = some 0 then ([], [], none)
    else
      match fetch r with
      | .error e => ([], [r], some e)
      | .ok page =>
        let yielded := match limit with
          | none => page.items
          | some n => page.items.take n
        let limit2 := match limit with
          | none => none
          | some n => some (n - yielded.length)
        let rest := itemsRun fetch fuel limit2 page.next
        (yielded ++ rest.1, r :: rest.2.1, rest.2.2)

/-- quick_search: builds the POST request (url, body) from the source lines,
hands it to the Items iterator whose page fetches go through
`_request_and_parse` followed by the page decoding (`parsePage`, a collaborator
of the modelled iterator), and materializes the item list.  The `name`,
`page_size`, `sort` and `strict` arguments are accepted and — as in the
source — never used.  Returns the outcome and the requests performed. -/
def quick_search (base_url : String) (filt : Json) (item_types : List String)
    (name : Option String) (page_size : Option Int) (sort : Option String)
    (strict : Option Bool) (limit : Option Nat)
    (doRequest : Request → DoResult) (parsePage : Json → PageT Request)
    (fuel : Nat) : Except Exc (List Item) × List Request :=
  let req := quickSearchRequest base_url filt item_types
  let fetch : Request → Except Exc (PageT Request) := fun r =>
    match requestAndParse (doRequest r) with
    | .ok body => .ok (parsePage body)
    | .error e => .error e
  let run := itemsRun fetch fuel limit (some req)
  match run.2.2 with
  | some e => (.error e, run.2.1)
  | none => (.ok run.1, run.2.1)

/-- The request constructed by get_assets: a GET of
base_url ++ DATA_PATH ++ "item-types/" ++ item.type ++ "/items/" ++ item.id. -/
def getAssetsRequest (base_url : String) (item : Item) : Request :=
  { url := base_url ++ DATA_PATH ++ "item-types/" ++ item.type ++ "/items/" ++ item.id
    method := "GET"
    data := none
    params := [] }

/-- get_assets: performs its GET; on MissingResource re-raises with the
extracted general-list first message (a parse failure propagating itself,
every other exception unchanged); on success returns
`[Asset(a) for a in resp.json().values()]`. -/
def get_assets (base_url : String) (item : Item) (doRequest : Request → DoResult) :
    Except Exc (List Asset) × List Request :=
  let req := getAssetsRequest base_url item
  match doRequest req with
  | .exc e =>
    match e with
    | .missingResource msg =>
      match missingResourceListParse msg with
      | .ok m => (.error (.missingResource (.extracted m)), [req])
      | .error p => (.error p, [req])
    | other => (.error other, [req])
  | .ok body =>
    match pyValues body with
    | .ok vs => (.ok (vs.map Asset.mk), [req])
    | .error p => (.error p, [req])

/-- get_asset: the source body is a single `raise NotImplementedError`; no
request is constructed or performed. -/
def get_asset (item : Item) (asset_type : String) : Except Exc Asset × List Request :=
  (.error .notImplemented, [])

/-- The request constructed by activate: a GET of the asset's server-supplied
activation URL. -/
def activateRequest (asset : Asset) : Request :=
  { url := asset.activate_url, method := "GET", data := none, params := [] }

/-- activate: performs its GET; on MissingResource re-raises with the
extracted scalar `general.message` (a parse failure propagating itself, every
other exception unchanged); on success returns
`[Asset(a) for a in resp.json()]` — iterating the decoded value directly, so a
dict body contributes its keys. -/
def activate (asset : Asset) (doRequest : Request → DoResult) :
    Except Exc (List Asset) × List Request :=
  let req := activateRequest asset
  match doRequest req with
  | .exc e =>
    match e with
    | .missingResource msg =>
      match missingResourceScalarParse msg with
      | .ok m => (.error (.missingResource (.extracted m)), [req])
      | .error p => (.error p, [req])
    | other => (.error other, [req])
  | .ok body =>
    match pyIter body with
    | .ok elems => (.ok (elems.map Asset.mk), [req])
    | .error p => (.error p, [req])

/-- download: the source body is a single `raise NotImplementedError`; no
request is constructed or performed. -/
def download (asset : Asset) : Except Exc Json × List Request :=
  (.error .notImplemented, [])

/-- A transport stub whose every request succeeds with a null body. -/
def okDo : Request → DoResult := fun _ => .ok Json.null

/-- A page decoder stub mapping every body to a single empty final page. -/
def emptyParse : Json → PageT Request := fun _ => { items := [], next := none }

/-- C1: quick_search performs no local sort validation.  The string
"acquired down" is outside SORT_ORDER, yet quick_search accepts it, raises no
caller error, and still issues its network request (the POST appears in the
performed-request trace and the run succeeds). -/
theorem quick_search_accepts_invalid_sort_without_local_error :
    "acquired down" ∉ SORT_ORDER ∧
    quick_search "api/" Json.null ["PSScene"] none none (some "acquired down")
        none none okDo emptyParse 5 =
      (.ok [], [quickSearchRequest "api/" Json.null ["PSScene"]]) := by
  exact ⟨by decide, rfl⟩

/-- C2: the search submission built by quick_search is a POST to
base_url ++ "data/v1/" ++ "quick-search" whose JSON body is exactly the
filter and item_types object; and — contrary to the claim — the performed
request is independent of name, page_size, sort and strict and carries no
query parameters. -/
theorem quick_search_request_is_post_with_body_only (base : String) (filt : Json)
    (item_types : List String) (name : Option String) (page_size : Option Int)
    (sort : Option String) (strict : Option Bool) :
    quickSearchRequest base filt item_types =
      { url := base ++ DATA_PATH ++ "quick-search"
        method := "POST"
        data := some (Json.obj [("filter", filt),
          ("item_types", Json.arr (item_types.map Json.str))])
        params := [] } ∧
    (quick_search base filt item_types name page_size sort strict none
        okDo emptyParse 1).2 = [quickSearchRequest base filt item_types] := by
  exact ⟨rfl, rfl⟩

/-- C8: get_asset and download unconditionally signal NotImplementedError and
construct or perform no request at all (their request trace is empty). -/
theorem get_asset_download_not_implemented (item : Item) (asset_type : String)
    (asset : Asset) :
    get_asset item asset_type = (.error .notImplemented, []) ∧
    download asset = (.error .notImplemented, []) := by
  exact ⟨rfl, rfl⟩

/-- C9: a successful get_assets response whose body decodes to a JSON object
yields the Assets built from the object's values, in the object's iteration
(insertion) order, not sorted. -/
theorem get_assets_wraps_values_in_iteration_order (base : String) (item : Item)
    (doRequest : Request → DoResult) (kvs : List (String × Json))
    (h : doRequest (getAssetsRequest base item) = .ok (Json.obj kvs)) :
    (get_assets base item doRequest).1 = .ok ((kvs.map Prod.snd).map Asset.mk) := by
  simp [get_assets, h, pyValues]

/-- Witness for C9: a two-field object with keys out of alphabetical order
produces the Assets of its values in insertion order. -/
theorem get_assets_wraps_values_in_iteration_order_witness :
    (get_assets "api/" { id := "item1", type := "PSScene", record := Json.null }
        (fun _ => .ok (Json.obj [("b", Json.num 2), ("a", Json.num 1)]))).1 =
      .ok [Asset.mk (Json.num 2), Asset.mk (Json.num 1)] := by
  exact get_assets_wraps_values_in_iteration_order "api/"
    { id := "item1", type := "PSScene", record := Json.null }
    (fun _ => .ok (Json.obj [("b", Json.num 2), ("a", Json.num 1)]))
    [("b", Json.num 2), ("a", Json.num 1)] rfl

/-- C10: a successful activate response is iterated directly, so an object
body contributes its keys: the result wraps each key as a string in an Asset,
not the record values. -/
theorem activate_wraps_iterated_keys (asset : Asset) (doRequest : Request → DoResult)
    (kvs : List (String × Json))
    (h : doRequest (activateRequest asset) = .ok (Json.obj kvs)) :
    (activate asset doRequest).1 =
      .ok ((kvs.map (fun kv => Json.str kv.fst)).map Asset.mk) := by
  simp [activate, h, pyIter]

/-- Witness for C10: an object body of asset records produces Assets wrapping
the keys "a1" and "a2", not the record values. -/
theorem activate_wraps_iterated_keys_witness :
    (activate { record := Json.null }
        (fun _ => .ok (Json.obj [("a1", Json.num 1), ("a2", Json.num 2)]))).1 =
      .ok [Asset.mk (Json.str "a1"), Asset.mk (Json.str "a2")] := by
  exact activate_wraps_iterated_keys { record := Json.null }
    (fun _ => .ok (Json.obj [("a1", Json.num 1), ("a2", Json.num 2)]))
    [("a1", Json.num 1), ("a2", Json.num 2)] rfl

/-- C4: when get_assets' request fails with MissingResource whose message
decodes to an object with a "general" list of objects, get_assets raises
MissingResource carrying exactly the first element's "message" value. -/
theorem get_assets_missing_resource_first_general_message (base : String)
    (item : Item) (doRequest : Request → DoResult)
    (kvs gkvs : List (String × Json)) (rest : List Json) (m : Json)
    (hreq : doRequest (getAssetsRequest base item) =
      .exc (.missingResource (.raw (some (Json.obj kvs)))))
    (hgen : List.lookup "general" kvs = some (Json.arr (Json.obj gkvs :: rest)))
    (hmsg : List.lookup "message" gkvs = some m) :
    (get_assets base item doRequest).1 = .error (.missingResource (.extracted m)) := by
  simp [get_assets, hreq, missingResourceListParse, json_loads, pyGetStr, hgen,
    pyGetInt, hmsg]

/-- Witness for C4: the spec's example body yields exactly "no such item". -/
theorem get_assets_missing_resource_first_general_message_witness :
    (get_assets "api/" { id := "item1", type := "PSScene", record := Json.null }
        (fun _ => .exc (.missingResource (.raw (some (Json.obj
          [("general", Json.arr [Json.obj [("message", Json.str "no such item")]])]))))) ).1 =
      .error (.missingResource (.extracted (Json.str "no such item"))) := by
  exact get_assets_missing_resource_first_general_message "api/"
    { id := "item1", type := "PSScene", record := Json.null } _ _ _ _ _
    rfl rfl rfl

/-- C5: when activate's request fails with MissingResource whose message
decodes to an object whose "general" field is itself an object carrying
"message", activate raises MissingResource with exactly that message; and on
that same scalar-shaped body the list-indexed parse used by get_assets fails
with a KeyError instead, so the two parsing shapes are distinct. -/
theorem activate_missing_resource_scalar_message (asset : Asset)
    (doRequest : Request → DoResult) (kvs gkvs : List (String × Json)) (m : Json)
    (hreq : doRequest (activateRequest asset) =
      .exc (.missingResource (.raw (some (Json.obj kvs)))))
    (hgen : List.lookup "general" kvs = some (Json.obj gkvs))
    (hmsg : List.lookup "message" gkvs = some m) :
    (activate asset doRequest).1 = .error (.missingResource (.extracted m)) ∧
    missingResourceListParse (.raw (some (Json.obj kvs))) =
      .error (.keyError (.num 0)) := by
  constructor
  · simp [activate, hreq, missingResourceScalarParse, json_loads, pyGetStr, hgen, hmsg]
  · simp [missingResourceListParse, json_loads, pyGetStr, hgen, pyGetInt]

/-- Witness for C5: the spec's example body yields exactly "no such asset",
and the list-indexed parse rejects the same body. -/
theorem activate_missing_resource_scalar_message_witness :
    (activate { record := Json.null }
        (fun _ => .exc (.missingResource (.raw (some (Json.obj
          [("general", Json.obj [("message", Json.str "no such asset")])]))))) ).1 =
      .error (.missingResource (.extracted (Json.str "no such asset"))) ∧
    missingResourceListParse (.raw (some (Json.obj
        [("general", Json.obj [("message", Json.str "no such asset")])]))) =
      .error (.keyError (.num 0)) := by
  exact activate_missing_resource_scalar_message { record := Json.null } _ _ _ _
    rfl rfl rfl

/-- C3: when a page request made by quick_search fails with BadQuery whose
message decodes to an object with a "field" object, quick_search raises
BadQuery carrying exactly the "message" of the first element of the list under
the field object's first key, and nothing else of the structured error. -/
theorem quick_search_bad_query_first_field_message (base : String) (filt : Json)
    (item_types : List String) (name : Option String) (page_size : Option Int)
    (sort : Option String) (strict : Option Bool) (fuel : Nat)
    (doRequest : Request → DoResult) (parsePage : Json → PageT Request)
    (kvs fkvs mkvs : List (String × Json)) (fkey : String)
    (restL : List Json) (m : Json)
    (hreq : doRequest (quickSearchRequest base filt item_types) =
      .exc (.badQuery (.raw (some (Json.obj kvs)))))
    (hfield : List.lookup "field" kvs =
      some (Json.obj ((fkey, Json.arr (Json.obj mkvs :: restL)) :: fkvs)))
    (hmsg : List.lookup "message" mkvs = some m) :
    (quick_search base filt item_types name page_size sort strict none
        doRequest parsePage (fuel + 1)).1 =
      .error (.badQuery (.extracted m)) := by
  simp [quick_search, itemsRun, requestAndParse, requestAndParseExc, badQueryParse,
    json_loads, pyGetStr, pyKeys, pyNextIter, pyGetInt, hreq, hfield, hmsg,
    List.lookup]

/-- Witness for C3: the spec's example body raises BadQuery with exactly
"invalid coordinates". -/
theorem quick_search_bad_query_first_field_message_witness :
    (quick_search "" Json.null [] none none none none none
        (fun _ => .exc (.badQuery (.raw (some (Json.obj [("field",
          Json.obj [("geometry",
            Json.arr [Json.obj [("message", Json.str "invalid coordinates")]])])])))))
        emptyParse 1).1 =
      .error (.badQuery (.extracted (Json.str "invalid coordinates"))) := by
  exact quick_search_bad_query_first_field_message "" Json.null [] none none none
    none 0
    (fun _ => .exc (.badQuery (.raw (some (Json.obj [("field",
      Json.obj [("geometry",
        Json.arr [Json.obj [("message", Json.str "invalid coordinates")]])])])))))
    emptyParse
    [("field", Json.obj [("geometry",
      Json.arr [Json.obj [("message", Json.str "invalid coordinates")]])])]
    [] [("message", Json.str "invalid coordinates")] "geometry" []
    (Json.str "invalid coordinates") rfl rfl rfl

/-- C6: whenever an error body fails to parse as the expected shape, the parse
error itself propagates out of quick_search, get_assets and activate unchanged
— it is never caught, swallowed or replaced by a default message. -/
theorem parse_failures_propagate_unchanged (msg : ExcMsg) (p : Exc) :
    (∀ (base : String) (filt : Json) (item_types : List String)
        (name : Option String) (page_size : Option Int) (sort : Option String)
        (strict : Option Bool) (fuel : Nat) (doRequest : Request → DoResult)
        (parsePage : Json → PageT Request),
      doRequest (quickSearchRequest base filt item_types) = .exc (.badQuery msg) →
      badQueryParse msg = .error p →
      (quick_search base filt item_types name page_size sort strict none
          doRequest parsePage (fuel + 1)).1 = .error p) ∧
    (∀ (base : String) (item : Item) (doRequest : Request → DoResult),
      doRequest (getAssetsRequest base item) = .exc (.missingResource msg) →
      missingResourceListParse msg = .error p →
      (get_assets base item doRequest).1 = .error p) ∧
    (∀ (asset : Asset) (doRequest : Request → DoResult),
      doRequest (activateRequest asset) = .exc (.missingResource msg) →
      missingResourceScalarParse msg = .error p →
      (activate asset doRequest).1 = .error p) := by
  refine ⟨?_, ?_, ?_⟩
  · intro base filt item_types name page_size sort strict fuel doRequest parsePage hreq hp
    simp [quick_search, itemsRun, requestAndParse, requestAndParseExc, hreq, hp]
  · intro base item doRequest hreq hp
    simp [get_assets, hreq, hp]
  · intro asset doRequest hreq hp
    simp [activate, hreq, hp]

/-- Witness for C6: a message that is not valid JSON makes all three
operations propagate the JSONDecodeError itself. -/
theorem parse_failures_propagate_unchanged_witness :
    (quick_search "" Json.null [] none none none none none
        (fun _ => .exc (.badQuery (.raw none))) emptyParse 1).1 =
      .error .jsonDecodeError ∧
    (get_assets "" { id := "i", type := "t", record := Json.null }
        (fun _ => .exc (.missingResource (.raw none)))).1 = .error .jsonDecodeError ∧
    (activate { record := Json.null }
        (fun _ => .exc (.missingResource (.raw none)))).1 = .error .jsonDecodeError := by
  refine ⟨?_, ?_, ?_⟩
  · exact (parse_failures_propagate_unchanged (.raw none) .jsonDecodeError).1 ""
      Json.null [] none none none none 0
      (fun _ => .exc (.badQuery (.raw none))) emptyParse rfl rfl
  · exact (parse_failures_propagate_unchanged (.raw none) .jsonDecodeError).2.1 ""
      { id := "i", type := "t", record := Json.null }
      (fun _ => .exc (.missingResource (.raw none))) rfl rfl
  · exact (parse_failures_propagate_unchanged (.raw none) .jsonDecodeError).2.2
      { record := Json.null } (fun _ => .exc (.missingResource (.raw none))) rfl rfl

/-- Total number of items across a list of page batches. -/
def sumLens (ps : List (List Item)) : Nat := (ps.map List.length).sum

/-- Number of items from page index i onward. -/
def totalFrom (pages : List (List Item)) (i : Nat) : Nat := sumLens (pages.drop i)

/-- Next-page reference of the linear mock server: the following index, when
one exists. -/
def mockNext (len i : Nat) : Option Nat := if i + 1 < len then some (i + 1) else none

/-- A linear mock paged endpoint: page i holds the i-th batch and links to
page i + 1; fetches never fail. -/
def mockFetch (pages : List (List Item)) (i : Nat) : Except Exc (PageT Nat) :=
  .ok { items := (pages[i]?).getD [], next := mockNext pages.length i }

lemma itemsRun_limit_zero {ρ : Type} (fetch : ρ → Except Exc (PageT ρ))
    (fuel : Nat) (ref : Option ρ) :
    itemsRun fetch fuel (some 0) ref = ([], [], none) := by
  cases fuel <;> cases ref <;> simp [itemsRun]

lemma totalFrom_step (pages : List (List Item)) (i : Nat) :
    totalFrom pages i = ((pages[i]?).getD []).length + totalFrom pages (i + 1) := by
  induction pages generalizing i with
  | nil => simp [totalFrom, sumLens]
  | cons p ps ih =>
    cases i with
    | zero => simp [totalFrom, sumLens]
    | succ j => simpa [totalFrom, sumLens] using ih j

lemma totalFrom_eq_zero (pages : List (List Item)) (i : Nat)
    (h : pages.length ≤ i) : totalFrom pages i = 0 := by
  simp [totalFrom, sumLens, List.drop_eq_nil_of_le h]

lemma drop_getD_cons (pages : List (List Item)) (i : Nat) (h : i < pages.length) :
    pages.drop i = ((pages[i]?).getD []) :: pages.drop (i + 1) := by
  induction pages generalizing i with
  | nil => simp at h
  | cons p ps ih =>
    cases i with
    | zero => simp
    | succ j => simpa using ih j (by simpa using h)

lemma itemsRun_none {ρ : Type} (fetch : ρ → Except Exc (PageT ρ))
    (fuel : Nat) (limit : Option Nat) :
    itemsRun fetch fuel limit none = ([], [], none) := by
  cases fuel <;> simp [itemsRun]

lemma itemsRun_mockFetch_length (pages : List (List Item)) :
    ∀ (fuel i n : Nat), pages.length ≤ fuel + i →
    (itemsRun (mockFetch pages) fuel (some n) (some i)).1.length =
      min n (totalFrom pages i) := by
  intro fuel
  induction fuel with
  | zero =>
    intro i n h
    have h0 : totalFrom pages i = 0 := totalFrom_eq_zero pages i (by omega)
    simp [itemsRun, h0]
  | succ fuel ih =>
    intro i n h
    have hstep := totalFrom_step pages i
    cases n with
    | zero => simp [itemsRun]
    | succ m =>
      rw [itemsRun]
      simp only [mockFetch, mockNext, Option.some.injEq, Nat.succ_ne_zero,
        reduceCtorEq, ite_false, if_false, List.length_append, List.length_take]
      by_cases hnext : i + 1 < pages.length
      · simp only [if_pos hnext]
        rw [ih (i + 1) _ (by omega)]
        omega
      · simp only [if_neg hnext]
        rw [itemsRun_none]
        have h1 : totalFrom pages (i + 1) = 0 :=
          totalFrom_eq_zero pages (i + 1) (by omega)
        simp only [List.length_nil]
        omega

lemma itemsRun_mockFetch_fetches (pages : List (List Item)) :
    ∀ (fuel i n k : Nat), 0 < n →
      n ≤ sumLens ((pages.drop i).take k) →
      (itemsRun (mockFetch pages) fuel (some n) (some i)).2.1.length ≤ k := by
  intro fuel
  induction fuel with
  | zero => intro i n k hn hk; simp [itemsRun]
  | succ fuel ih =>
    intro i n k hn hk
    cases n with
    | zero => omega
    | succ m =>
      cases k with
      | zero => simp [sumLens] at hk
      | succ k =>
        by_cases hi : i < pages.length
        · rw [drop_getD_cons pages i hi] at hk
          simp only [List.take_succ_cons, sumLens, List.map_cons, List.sum_cons] at hk
          rw [itemsRun]
          simp only [mockFetch, mockNext, Option.some.injEq, Nat.succ_ne_zero,
            reduceCtorEq, ite_false, if_false, List.length_cons, List.length_take]
          by_cases hfit : m + 1 ≤ ((pages[i]?).getD []).length
          · have hlim : m + 1 - min (m + 1) ((pages[i]?).getD []).length = 0 := by
              omega
            rw [hlim, itemsRun_limit_zero]
            simp only [List.length_nil]
            omega
          · by_cases hnext : i + 1 < pages.length
            · simp only [if_pos hnext]
              have hrest := ih (i + 1)
                (m + 1 - min (m + 1) ((pages[i]?).getD []).length) k
                (by omega)
                (by simp only [sumLens]; omega)
              simp only [sumLens] at hrest
              omega
            · simp only [if_neg hnext]
              rw [itemsRun_none]
              simp only [List.length_nil]
              omega
        · have h2 : pages.drop i = [] := List.drop_eq_nil_of_le (by omega)
          rw [h2] at hk
          simp [sumLens] at hk

/-- An item of the concrete paging mock. -/
def mockItem (j : Nat) : Item := { id := toString j, type := "PSScene", record := Json.null }

/-- Next-page request of the concrete paging mock. -/
def pageRequest (i : Nat) : Request :=
  { url := "page" ++ toString i, method := "GET", data := none, params := [] }

/-- Transport of the concrete paging mock: every request succeeds, and the
body records which page was asked for. -/
def pagedDo : Request → DoResult := fun r =>
  if r.url = "page1" then .ok (Json.num 1)
  else if r.url = "page2" then .ok (Json.num 2)
  else .ok (Json.num 0)

/-- Page decoding of the concrete paging mock: pages of sizes 3, 3, 2, each
linking to the next. -/
def pagedParse : Json → PageT Request := fun b =>
  match b with
  | .num 1 => { items := [mockItem 3, mockItem 4, mockItem 5], next := some (pageRequest 2) }
  | .num 2 => { items := [mockItem 6, mockItem 7], next := none }
  | _ => { items := [mockItem 0, mockItem 1, mockItem 2], next := some (pageRequest 1) }

/-- C7: with limit n the materialized iterator yields exactly
min(n, total items) items over any linear sequence of pages; once the first k
pages already carry n items, no more than k page fetches are performed; and on
the concrete mock with page sizes 3, 3, 2 and limit 5, quick_search returns
exactly the first 5 items and performs only the two first page requests — the
third page is never fetched. -/
theorem quick_search_limit_bounds_items_and_fetches :
    (∀ (pages : List (List Item)) (fuel n : Nat), pages.length ≤ fuel →
      (itemsRun (mockFetch pages) fuel (some n) (some 0)).1.length =
        min n (sumLens pages)) ∧
    (∀ (pages : List (List Item)) (fuel n k : Nat), 0 < n →
      n ≤ sumLens (pages.take k) →
      (itemsRun (mockFetch pages) fuel (some n) (some 0)).2.1.length ≤ k) ∧
    (quick_search "" Json.null ["PSScene"] none none none none (some 5)
        pagedDo pagedParse 10).1 =
      .ok [mockItem 0, mockItem 1, mockItem 2, mockItem 3, mockItem 4] ∧
    (quick_search "" Json.null ["PSScene"] none none none none (some 5)
        pagedDo pagedParse 10).2 =
      [quickSearchRequest "" Json.null ["PSScene"], pageRequest 1] := by
  refine ⟨?_, ?_, ?_, ?_⟩
  · intro pages fuel n h
    have h0 := itemsRun_mockFetch_length pages fuel 0 n (by omega)
    simpa [totalFrom] using h0
  · intro pages fuel n k hn hk
    exact itemsRun_mockFetch_fetches pages fuel 0 n k hn (by simpa using hk)
  · rfl
  · rfl

/-- Witness for C7: on a two-page mock with one item per page and limit 1,
the run yields exactly min 1 2 = 1 item and fetches at most one page. -/
theorem quick_search_limit_bounds_items_and_fetches_witness :
    (itemsRun (mockFetch [[mockItem 0], [mockItem 1]]) 2 (some 1) (some 0)).1.length =
      min 1 (sumLens [[mockItem 0], [mockItem 1]]) ∧
    (itemsRun (mockFetch [[mockItem 0], [mockItem 1]]) 2 (some 1) (some 0)).2.1.length ≤ 1 := by
  constructor
  · exact quick_search_limit_bounds_items_and_fetches.1
      [[mockItem 0], [mockItem 1]] 2 1 (by decide)
  · exact quick_search_limit_bounds_items_and_fetches.2.1
      [[mockItem 0], [mockItem 1]] 2 1 1 (by decide) (by decide)
